import Mathlib

/-!
Shallow embedding of the case-staging and PACS-upload pipeline of the
dentscan desktop service (src/services/folder_monitor.py and
src/services/pacs_uploader.py), together with theorems settling the
specification claims about it.

Conventions of the embedding:
* DICOM datasets are records of the tags the pipeline reads or writes;
  an absent tag is `none`.
* `generate_uid()` is modelled by an abstract supply of UID strings
  (`UidGen`), threaded through every operation in the order the source
  calls `generate_uid`.
* Python string truthiness (`x or y` where `x` is `None` or `""`) is
  modelled by `pyOr`.
* Filesystem writes are modelled by returning the list of
  `(file name, dataset)` pairs emitted into `Orthanc/`; existing
  outputs are assumed absent (a fresh staging directory), matching the
  `if out_path.exists(): continue` fast path never firing.
* A raised Python exception that the source does not catch is modelled
  with `Except`; exceptions the source catches and logs are folded into
  the corresponding fallback value.
-/
/-- Python truthiness for optional strings: `None` and `""` are falsy. -/
def pyOr (o : Option String) : Option String :=
  match o with
  | some s => if s = "" then none else some s
  | none => none
/-- `str.upper()` on the underlying character list (kernel-reducible). -/
def strUpper (s : String) : String := String.mk (s.data.map Char.toUpper)
/-- `str.lower()` on the underlying character list (kernel-reducible). -/
def strLower (s : String) : String := String.mk (s.data.map Char.toLower)
/-- Python `needle in hay` substring test. -/
def strContains (hay needle : String) : Bool :=
  hay.data.tails.any (fun t => needle.data.isPrefixOf t)
/-- Python `str.strip()` on the underlying character list
(kernel-reducible, unlike `String.trim`). -/
def strStrip (s : String) : String :=
  String.mk (((s.data.dropWhile Char.isWhitespace).reverse.dropWhile Char.isWhitespace).reverse)
/-- Abstract supply of values returned by successive `pydicom.uid.generate_uid()`
calls: `supply n` is the value of the `n`-th call, `next` the index of the
next call. -/
structure UidGen where
  supply : Nat → String
  next : Nat
/-- Draw the next generated UID. -/
def takeUid (g : UidGen) : String × UidGen :=
  (g.supply g.next, { g with next := g.next + 1 })
def explicitVRLittleEndian : String := "1.2.840.10008.1.2.1"
def encapsulatedPdfStorage : String := "1.2.840.10008.5.1.4.1.1.104.1"
def secondaryCaptureImageStorage : String := "1.2.840.10008.5.1.4.1.1.7"
/-- The file-meta group of a DICOM file (`ds.file_meta`). -/
structure FileMeta where
  mediaStorageSOPClassUID : Option String := none
  mediaStorageSOPInstanceUID : Option String := none
  transferSyntaxUID : Option String := none
  implementationVersionName : Option String := none
  deriving DecidableEq, Repr
/-- A DICOM dataset restricted to the tags the pipeline reads or writes.
Pixel data and the encapsulated document are byte lists. -/
structure Dicom where
  sopClassUID : Option String := none
  sopInstanceUID : Option String := none
  seriesInstanceUID : Option String := none
  studyInstanceUID : Option String := none
  modality : Option String := none
  numberOfFrames : Option Int := none
  seriesNumber : Option Int := none
  instanceNumber : Option Int := none
  institutionName : Option String := none
  patientName : String := ""
  patientID : String := ""
  patientBirthDate : String := ""
  patientSex : String := ""
  studyDate : String := ""
  studyTime : String := ""
  accessionNumber : String := ""
  studyDescription : String := ""
  mimeTypeOfEncapsulatedDocument : Option String := none
  encapsulatedDocument : Option (List Nat) := none
  encapsulatedDocumentLength : Option Nat := none
  samplesPerPixel : Option Nat := none
  photometricInterpretation : Option String := none
  planarConfiguration : Option Nat := none
  rows : Option Nat := none
  columns : Option Nat := none
  bitsAllocated : Option Nat := none
  bitsStored : Option Nat := none
  highBit : Option Nat := none
  pixelRepresentation : Option Nat := none
  perFrameFunctionalGroups : Bool := false
  pixelData : List Nat := []
  fileMeta : FileMeta := {}
  otherTags : List (String × String) := []
  deriving DecidableEq, Repr
/-- The per-case study-info record built by `FolderMonitor._extract_study_info`
from the first DICOM of the walk. -/
structure StudyInfo where
  sop_uid : Option String := none
  study_uid : Option String := none
  patient_name : String := ""
  patient_id : String := ""
  patient_birth_date : String := ""
  patient_sex : String := ""
  study_date : String := ""
  study_time : String := ""
  accession_number : String := ""
  study_description : String := ""
  deriving DecidableEq, Repr
/-- `FolderMonitor._extract_study_info`: the SOP UID comes from the
file-meta `MediaStorageSOPInstanceUID`, the rest from the main dataset. -/
def extractStudyInfo (ds : Dicom) : StudyInfo :=
  { sop_uid := ds.fileMeta.mediaStorageSOPInstanceUID
    study_uid := ds.studyInstanceUID
    patient_name := ds.patientName
    patient_id := ds.patientID
    patient_birth_date := ds.patientBirthDate
    patient_sex := ds.patientSex
    study_date := ds.studyDate
    study_time := ds.studyTime
    accession_number := ds.accessionNumber
    study_description := ds.studyDescription }
/-- `FolderMonitor._build_file_meta`. -/
def buildFileMeta (sopClassUid sopInstanceUid : String) : FileMeta :=
  { mediaStorageSOPClassUID := some sopClassUid
    mediaStorageSOPInstanceUID := some sopInstanceUid
    transferSyntaxUID := some explicitVRLittleEndian
    implementationVersionName := none }
/-- Input PDF for staging: the stem of the file name and its bytes. -/
structure PdfFile where
  stem : String
  bytes : List Nat
  deriving DecidableEq, Repr
/-- Input raster image for staging, already decoded to 24-bit RGB
(the PIL `convert("RGB")` step is abstract). -/
structure ImageFile where
  stem : String
  rgbBytes : List Nat
  rows : Nat
  cols : Nat
  deriving DecidableEq, Repr
/-- `FolderMonitor._create_pdf_dicom`: builds the EncapsulatedPDFStorage
dataset. `sop = study_info.get("sop_uid") or generate_uid()`,
`study = study_info.get("study_uid") or generate_uid()`, a fresh series UID
always; the UID generator is consumed in exactly that order. Content
date/time are wall-clock values and are not modelled. -/
def createPdfDicom (institutionName : String) (pdf : PdfFile) (caseName : String)
    (si : StudyInfo) (g : UidGen) : Dicom × UidGen :=
  let (sop, g1) :=
    match pyOr si.sop_uid with
    | some s => (s, g)
    | none => takeUid g
  let (study, g2) :=
    match pyOr si.study_uid with
    | some s => (s, g1)
    | none => takeUid g1
  let (series, g3) := takeUid g2
  ({ sopClassUID := some encapsulatedPdfStorage
     sopInstanceUID := some sop
     studyInstanceUID := some study
     seriesInstanceUID := some series
     modality := some "DOC"
     institutionName := some institutionName
     seriesNumber := some 1
     instanceNumber := some 1
     mimeTypeOfEncapsulatedDocument := some "application/pdf"
     encapsulatedDocument := some pdf.bytes
     encapsulatedDocumentLength := some pdf.bytes.length
     patientName := if si.patient_name = "" then caseName else si.patient_name
     patientID := si.patient_id
     patientBirthDate := si.patient_birth_date
     patientSex := si.patient_sex
     studyDate := si.study_date
     studyTime := si.study_time
     accessionNumber := si.accession_number
     studyDescription := si.study_description
     fileMeta := buildFileMeta encapsulatedPdfStorage sop }, g3)
/-- `FolderMonitor._create_image_dicom`: builds the SecondaryCaptureImageStorage
dataset with the same UID selection as the PDF path. -/
def createImageDicom (institutionName : String) (img : ImageFile) (caseName : String)
    (si : StudyInfo) (g : UidGen) : Dicom × UidGen :=
  let (sop, g1) :=
    match pyOr si.sop_uid with
    | some s => (s, g)
    | none => takeUid g
  let (study, g2) :=
    match pyOr si.study_uid with
    | some s => (s, g1)
    | none => takeUid g1
  let (series, g3) := takeUid g2
  ({ sopClassUID := some secondaryCaptureImageStorage
     sopInstanceUID := some sop
     studyInstanceUID := some study
     seriesInstanceUID := some series
     modality := some "SC"
     institutionName := some institutionName
     seriesNumber := some 1
     instanceNumber := some 1
     patientName := if si.patient_name = "" then caseName else si.patient_name
     patientID := si.patient_id
     patientBirthDate := si.patient_birth_date
     patientSex := si.patient_sex
     studyDate := si.study_date
     studyTime := si.study_time
     accessionNumber := si.accession_number
     studyDescription := si.study_description
     samplesPerPixel := some 3
     photometricInterpretation := some "RGB"
     planarConfiguration := some 0
     rows := some img.rows
     columns := some img.cols
     bitsAllocated := some 8
     bitsStored := some 8
     highBit := some 7
     pixelRepresentation := some 0
     pixelData := img.rgbBytes
     fileMeta := buildFileMeta secondaryCaptureImageStorage sop }, g3)
/-- Stable insertion used by `sortByInstanceNumber`. -/
def insertByInstanceNumber (x : Dicom) : List Dicom → List Dicom
  | [] => [x]
  | y :: ys =>
      if x.instanceNumber.getD 0 ≤ y.instanceNumber.getD 0 then x :: y :: ys
      else y :: insertByInstanceNumber x ys
/-- `datasets.sort(key=lambda d: getattr(d, "InstanceNumber", 0))`: a stable
ascending sort by `InstanceNumber`, treating an absent tag as 0. -/
def sortByInstanceNumber : List Dicom → List Dicom
  | [] => []
  | x :: xs => insertByInstanceNumber x (sortByInstanceNumber xs)
/-- `FolderMonitor._convert_multi_file_to_multiframe`.

Order of events in the source: empty input raises `ValueError`; the loaded
datasets are sorted in place by `InstanceNumber`; `np.stack` raises when the
per-file pixel arrays disagree in shape (the caller catches this, so the
result is `none`); the copy of the first (after sorting) dataset receives
`NumberOfFrames`, the concatenated pixel bytes and `InstitutionName`; then
`multi_ds.SOPInstanceUID = first_ds.get("SOPInstanceUID", generate_uid())`
(the `generate_uid()` default argument is always evaluated, hence always
consumed) and the same value is mirrored into the file meta; finally any
`InstanceNumber` is deleted and any `PerFrameFunctionalGroupsSequence`
dropped. -/
def convertMultiFileToMultiframe (g : UidGen) (institutionName : String)
    (dss : List Dicom) : Option Dicom × UidGen :=
  match sortByInstanceNumber dss with
  | [] => (none, g)
  | first :: rest =>
      if (first :: rest).all (fun d => d.pixelData.length = first.pixelData.length) then
        let frames := first :: rest
        let (defaultUid, g1) := takeUid g
        let newSop := first.sopInstanceUID.getD defaultUid
        (some { first with
                  numberOfFrames := some (Int.ofNat frames.length)
                  pixelData := (frames.map (fun d => d.pixelData)).flatten
                  institutionName := some institutionName
                  sopInstanceUID := some newSop
                  fileMeta := { first.fileMeta with mediaStorageSOPInstanceUID := some newSop }
                  instanceNumber := none
                  perFrameFunctionalGroups := false }, g1)
      else (none, g)
/-- A source DICOM file as seen by the stager: the stem and suffix of its
path and its dataset. -/
structure SrcFile where
  stem : String
  suffix : String
  ds : Dicom
  deriving DecidableEq, Repr
/-- The output name `f"{path.stem} DCM {path.suffix or '.dcm'}"`. -/
def outNameDcm (f : SrcFile) : String :=
  f.stem ++ " DCM " ++ (if f.suffix = "" then ".dcm" else f.suffix)
/-- The romexis single-DICOM branch of `find_cases` (lines 653-668): the
dataset is read, `InstitutionName` is assigned on the in-memory dataset,
but the staged output is produced by `shutil.copy2(dicom_path, out_path)`
of the source file, so the emitted file is the source dataset unchanged
and the in-memory assignment is discarded. -/
def stageSingleRomexis (institutionName : String) (f : SrcFile) : Dicom :=
  let _ds := { f.ds with institutionName := some institutionName }
  f.ds
/-- The non-romexis single-DICOM branch of `find_cases` (lines 670-686) and
of `_process_single_case` (lines 1007-1013): full read, set
`ImplementationVersionName = "ROMEXIS_10"` and `InstitutionName`, then
`save_as`, so here the rewrites do reach the emitted file. -/
def stageSingleNonRomexis (institutionName : String) (f : SrcFile) : Dicom :=
  { f.ds with
      institutionName := some institutionName
      fileMeta := { f.ds.fileMeta with implementationVersionName := some "ROMEXIS_10" } }
/-- The project branch of `find_cases` (lines 706-721): like the romexis
branch, the in-memory `InstitutionName` assignment is discarded and
`shutil.copy2` emits the source file unchanged. -/
def stageProjectCopy (institutionName : String) (f : SrcFile) : Dicom :=
  let _ds := { f.ds with institutionName := some institutionName }
  f.ds
/-- The 2D-DICOM branch of `find_cases` (lines 723-738): same discarded
in-memory assignment followed by a verbatim `shutil.copy2`. -/
def stage2dCopy (institutionName : String) (f : SrcFile) : Dicom :=
  let _ds := { f.ds with institutionName := some institutionName }
  f.ds
/-- `max(multi_series.values(), key=len)`: the first list of maximal length
in iteration (insertion) order. -/
def maxByLen (vals : List (List SrcFile)) : List SrcFile :=
  match vals with
  | [] => []
  | v :: rest => rest.foldl (fun acc y => if acc.length < y.length then y else acc) v
/-- The `study_info` fix-up at the head of the PDF/image staging block
(`find_cases` lines 740-744): a missing record becomes
`{"study_uid": generate_uid()}`, a falsy `study_uid` is replaced by a
fresh UID. -/
def fixStudyInfo (si0 : Option StudyInfo) (g : UidGen) : StudyInfo × UidGen :=
  match si0 with
  | none =>
      let (u, g1) := takeUid g
      ({ study_uid := some u }, g1)
  | some si =>
      match pyOr si.study_uid with
      | some _ => (si, g)
      | none =>
          let (u, g1) := takeUid g
          ({ si with study_uid := some u }, g1)
/-- The PDF loop of the attachment staging block: each PDF yields one file
`f"{stem} PDF.dcm"` and appends the label `"PDF"`. -/
def stagePdfs (institutionName caseName : String) (si : StudyInfo) :
    List PdfFile → UidGen → List (String × Dicom) × UidGen
  | [], g => ([], g)
  | p :: ps, g =>
      let r1 := createPdfDicom institutionName p caseName si g
      let r2 := stagePdfs institutionName caseName si ps r1.2
      ((p.stem ++ " PDF.dcm", r1.1) :: r2.1, r2.2)
/-- The image loop of the attachment staging block: each image yields one
file `f"{stem} IMG.dcm"` and appends the label `"Image"`. -/
def stageImages (institutionName caseName : String) (si : StudyInfo) :
    List ImageFile → UidGen → List (String × Dicom) × UidGen
  | [], g => ([], g)
  | i :: is, g =>
      let r1 := createImageDicom institutionName i caseName si g
      let r2 := stageImages institutionName caseName si is r1.2
      ((i.stem ++ " IMG.dcm", r1.1) :: r2.1, r2.2)
/-- The `if pdf_files or image_files:` block shared by `find_cases`
(lines 740-769) and `_process_single_case` (lines 1057-1079): fix up
`study_info`, then emit one encapsulated PDF per source PDF and one
secondary capture per source image, collecting one `"PDF"` or `"Image"`
label per emitted file. -/
def stageAttachments (institutionName caseName : String) (si0 : Option StudyInfo)
    (pdfs : List PdfFile) (imgs : List ImageFile) (g : UidGen) :
    List (String × Dicom) × List String × UidGen :=
  if pdfs.isEmpty ∧ imgs.isEmpty then ([], [], g)
  else
    let r0 := fixStudyInfo si0 g
    let rP := stagePdfs institutionName caseName r0.1 pdfs r0.2
    let rI := stageImages institutionName caseName r0.1 imgs rP.2
    (rP.1 ++ rI.1, pdfs.map (fun _ => "PDF") ++ imgs.map (fun _ => "Image"), rI.2)
/-- The classification result of a case as used by the Orthanc staging
block: the flags and buckets that are local variables of `find_cases`
(`has_single_dicom`, `romexis`, `has_project`, the file lists and the
`multi_series` mapping in insertion order). -/
structure CaseVars where
  hasSingleDicom : Bool := false
  romexis : Bool := false
  hasProject : Bool := false
  singleDicomFiles : List SrcFile := []
  projectFiles : List SrcFile := []
  dicom2dFiles : List SrcFile := []
  multiSeries : List (String × List SrcFile) := []
  pdfFiles : List PdfFile := []
  imageFiles : List ImageFile := []
  studyInfo : Option StudyInfo := none
/-- The Orthanc staging block of `find_cases` (lines 640-769). Returns the
emitted `(file name, dataset)` pairs, the accumulated `case_labels`, and the
UID generator state; `.error ()` models the uncaught `AttributeError` of
`ds.Modality.upper()` at line 691 when the first file of the chosen series
has no `Modality` (lines 690-691 sit outside every `try`). The
`"3D-DICOM"` label of the multi-series branch is appended before the
modality check and before the conversion, so it survives a failed
conversion. -/
def stageFindCases (institutionName caseName : String) (cv : CaseVars) (g : UidGen) :
    Except Unit (List (String × Dicom) × List String × UidGen) :=
  let multiDicomFiles :=
    if cv.multiSeries.isEmpty then []
    else maxByLen (cv.multiSeries.map (fun p => p.2))
  let part1 : Except Unit (List (String × Dicom) × List String × UidGen) :=
    if cv.hasSingleDicom && cv.romexis then
      .ok (cv.singleDicomFiles.map (fun f => (outNameDcm f, stageSingleRomexis institutionName f)),
           ["3D-DICOM"], g)
    else if cv.hasSingleDicom && !cv.romexis then
      .ok (cv.singleDicomFiles.map (fun f => (outNameDcm f, stageSingleNonRomexis institutionName f)),
           ["3D-DICOM"], g)
    else if !cv.hasSingleDicom && !cv.romexis && !multiDicomFiles.isEmpty then
      match multiDicomFiles.head? with
      | none => .ok ([], ["3D-DICOM"], g)
      | some f0 =>
          match f0.ds.modality with
          | none => .error ()
          | some m =>
              if strUpper m = "CT" then
                match convertMultiFileToMultiframe g institutionName
                    (multiDicomFiles.map (fun f => f.ds)) with
                | (some fused, g1) => .ok ([(caseName ++ " DCM.dcm", fused)], ["3D-DICOM"], g1)
                | (none, g1) => .ok ([], ["3D-DICOM"], g1)
              else .ok ([], ["3D-DICOM"], g)
    else .ok ([], [], g)
  match part1 with
  | .error e => .error e
  | .ok (out1, labels1, g1) =>
      let (out2, labels2) :=
        if cv.hasProject then
          (cv.projectFiles.map (fun f => (outNameDcm f, stageProjectCopy institutionName f)),
           ["OD3D"])
        else if !cv.dicom2dFiles.isEmpty then
          (cv.dicom2dFiles.map (fun f => (outNameDcm f, stage2dCopy institutionName f)),
           ["2D-DICOM"])
        else ([], [])
      let (out3, labels3, g2) :=
        stageAttachments institutionName caseName cv.studyInfo cv.pdfFiles cv.imageFiles g1
      .ok (out1 ++ out2 ++ out3, labels1 ++ labels2 ++ labels3, g2)
/-- The Orthanc staging block of `_process_single_case` (lines 992-1083).
Differences from `find_cases` faithfully kept: the branch conditions test
the lists rather than the flags; the romexis single-DICOM path is a plain
`shutil.copy2` with no tag pass at all; the multi-series branch has no
romexis condition and no modality check; project and 2D files are staged by
independent `if` statements (not `elif`) and both are plain copies; and a
final `"Yesterday-Recovery"` label is always appended. -/
def stageProcessSingleCase (institutionName caseName : String) (cv : CaseVars) (g : UidGen) :
    List (String × Dicom) × List String × UidGen :=
  let (out1, labels1, g1) :=
    if !cv.singleDicomFiles.isEmpty then
      (cv.singleDicomFiles.map (fun f =>
          (outNameDcm f,
           if cv.romexis then f.ds else stageSingleNonRomexis institutionName f)),
       ["3D-DICOM"], g)
    else if !cv.multiSeries.isEmpty then
      let multiDicomFiles := maxByLen (cv.multiSeries.map (fun p => p.2))
      if !multiDicomFiles.isEmpty then
        match convertMultiFileToMultiframe g institutionName
            (multiDicomFiles.map (fun f => f.ds)) with
        | (some fused, g1) => ([(caseName ++ " DCM.dcm", fused)], ["3D-DICOM"], g1)
        | (none, g1) => ([], ["3D-DICOM"], g1)
      else ([], ["3D-DICOM"], g)
    else ([], [], g)
  let (out2, labels2) :=
    if !cv.projectFiles.isEmpty then
      (cv.projectFiles.map (fun f => (outNameDcm f, f.ds)), ["OD3D"])
    else ([], [])
  let (out3, labels3) :=
    if !cv.dicom2dFiles.isEmpty then
      (cv.dicom2dFiles.map (fun f => (outNameDcm f, f.ds)), ["2D-DICOM"])
    else ([], [])
  let (out4, labels4, g2) :=
    stageAttachments institutionName caseName cv.studyInfo cv.pdfFiles cv.imageFiles g1
  (out1 ++ out2 ++ out3 ++ out4,
   labels1 ++ labels2 ++ labels3 ++ labels4 ++ ["Yesterday-Recovery"], g2)
/-- One DICOM file reached by the DICOM walk of `find_cases`: its file name,
whether its relative path contains `ondemand 3d`, and its dataset. Non-DICOM
files fail the `is_dicom` probe and never reach the classification body, so
they are not part of the item list. -/
structure WalkItem where
  name : String
  fromOndemand : Bool
  ds : Dicom
  deriving DecidableEq, Repr
/-- The mutable classification state of the DICOM walk of `find_cases`:
the bucket lists, the seen-SOP set, the first-DICOM study info, the romexis
flag and the `has_*` flags. -/
structure WalkAcc where
  sopUids : List String := []
  studyInfo : Option StudyInfo := none
  romexis : Bool := false
  hasSingleDicom : Bool := false
  hasProject : Bool := false
  hasMultipleDicom : Bool := false
  singleDicomFiles : List String := []
  projectFiles : List String := []
  dicom2dFiles : List String := []
  multiSeries : List (String × List String) := []
  dicomFiles : List String := []
  deriving DecidableEq, Repr
/-- `multi_series.setdefault(series_uid, []).append(item)`: append to the
entry of `uid`, creating it at the end in insertion order. -/
def addMultiSeries (uid item : String) : List (String × List String) → List (String × List String)
  | [] => [(uid, [item])]
  | (k, v) :: rest =>
      if k = uid then (k, v ++ [item]) :: rest
      else (k, v) :: addMultiSeries uid item rest
/-- The romexis detection
`if romexis == False: if "ROMEXIS" in str(impl_version).upper(): romexis = True`. -/
def updateRomexis (ds : Dicom) (r : Bool) : Bool :=
  if r then r
  else strContains (strUpper (ds.fileMeta.implementationVersionName.getD "")) "ROMEXIS"
/-- The tail of the classification body shared by every bucketed item of
`find_cases` (lines 609-624): append to `dicom_files`, copy into `Dicoms/`
(a filesystem effect, not modelled), then re-run the romexis detection. -/
def finishItem (it : WalkItem) (acc : WalkAcc) : WalkAcc :=
  { acc with
      dicomFiles := acc.dicomFiles ++ [it.name]
      romexis := updateRomexis it.ds acc.romexis }
/-- The gate `modality and modality.upper() == "CT" and is_from_ondemand`
of the `NumberOfFrames`-present branches. -/
def qualifiesOndemandCT (it : WalkItem) : Bool :=
  (match it.ds.modality with
   | some m => strUpper m = "CT"
   | none => false) && it.fromOndemand
/-- One iteration of the DICOM walk body of `find_cases` (lines 551-624) on
an item that passed `is_dicom` and was read successfully. The result is
`.error acc` when the body raises an exception the per-file code does not
catch; the payload carries the state at the moment of the raise, because
the mutations already performed (romexis, study info, the seen-SOP set)
persist. The only such raise reachable for a well-formed dataset is
`modality.upper()` at line 600 when `NumberOfFrames` and `Modality` are
both absent. -/
def classifyItemFC (caseName : String) (it : WalkItem) (acc : WalkAcc) :
    Except WalkAcc WalkAcc :=
  let acc := { acc with romexis := updateRomexis it.ds acc.romexis }
  let acc :=
    if acc.studyInfo.isNone then { acc with studyInfo := some (extractStudyInfo it.ds) }
    else acc
  let step : Except WalkAcc WalkAcc × Bool :=
    match it.ds.sopInstanceUID with
    | some u =>
        if u ∈ acc.sopUids then (.ok acc, true)
        else (.ok { acc with sopUids := acc.sopUids ++ [u] }, false)
    | none => (.ok acc, false)
  match step with
  | (.error a, _) => .error a
  | (.ok acc, true) => .ok acc
  | (.ok acc, false) =>
      match it.ds.numberOfFrames with
      | some nf =>
          if nf > 1 then
            if qualifiesOndemandCT it then
              .ok (finishItem it
                { acc with hasSingleDicom := true, singleDicomFiles := acc.singleDicomFiles ++ [it.name] })
            else .ok acc
          else
            if qualifiesOndemandCT it then
              .ok (finishItem it
                { acc with hasProject := true, projectFiles := acc.projectFiles ++ [it.name] })
            else .ok acc
      | none =>
          match it.ds.modality with
          | none => .error acc
          | some m =>
              if strUpper m ≠ "CT" then
                .ok (finishItem it { acc with dicom2dFiles := acc.dicom2dFiles ++ [it.name] })
              else
                let seriesUid :=
                  match pyOr it.ds.seriesInstanceUID with
                  | some s => s
                  | none => "unknown-" ++ caseName
                .ok (finishItem it
                  { acc with
                      hasMultipleDicom := true
                      multiSeries := addMultiSeries seriesUid it.name acc.multiSeries })
/-- The `except` handler of the DICOM walk of `find_cases` (lines 626-634):
the counters and flags are reset, but the bucket lists, the seen-SOP set and
the study info keep the values accumulated so far. -/
def resetFlagsFC (acc : WalkAcc) : WalkAcc :=
  { acc with
      hasSingleDicom := false
      hasProject := false
      hasMultipleDicom := false
      romexis := false }
/-- The DICOM walk loop of `find_cases` (lines 523-634) over the items in
probe order: the whole `while` loop sits in a single `try`, so the first
uncaught per-item exception aborts the walk and runs the resetting handler;
the remaining items are never examined. -/
def dicomWalkFC (caseName : String) : List WalkItem → WalkAcc → WalkAcc
  | [], acc => acc
  | it :: rest, acc =>
      match classifyItemFC caseName it acc with
      | .ok acc2 => dicomWalkFC caseName rest acc2
      | .error a => resetFlagsFC a
/-- A directory tree entry under a case folder. -/
inductive Entry where
  | file (name : String)
  | dir (name : String) (children : List Entry)
mutual
/-- Files probed below one entry by the DICOM walk of `find_cases`
(lines 523-549): every subdirectory is pushed onto the stack, every regular
file is probed with `is_dicom`. The source drains a LIFO stack; the model
collects the same set of probed files in pre-order. -/
def fcProbedEntry : Entry → List String
  | .file n => [n]
  | .dir _ ch => fcProbedList ch
/-- `fcProbedEntry` over a list of sibling entries. -/
def fcProbedList : List Entry → List String
  | [] => []
  | e :: rest => fcProbedEntry e ++ fcProbedList rest
end
mutual
/-- Files probed below one entry by the DICOM walk of `_process_single_case`
(lines 931-944): a subdirectory is pushed only when
`'ondemand' in item.name.lower()`; any other subdirectory falls through
`if not item.is_file(): continue` and its whole subtree is skipped. -/
def pscProbedEntry : Entry → List String
  | .file n => [n]
  | .dir n ch => if strContains (strLower n) "ondemand" then pscProbedList ch else []
/-- `pscProbedEntry` over a list of sibling entries. -/
def pscProbedList : List Entry → List String
  | [] => []
  | e :: rest => pscProbedEntry e ++ pscProbedList rest
end
/-- An HTTP request issued by the PACS client, identified by method, path
and the discriminating part of its body. -/
structure HttpReq where
  method : String
  path : String
  body : String
  deriving DecidableEq, Repr
/-- The observable outcome of one HTTP call: `exn` models a transport
exception raised by the `requests` call itself (`URLError`-like);
otherwise `status` is the HTTP status, `jsonTruthy` the Python truthiness
of `resp.json()` (a non-empty array for `/tools/find`), and `jsonFirst`
the first element of that array when present. -/
structure HttpResp where
  exn : Bool := false
  status : Nat := 200
  jsonTruthy : Bool := false
  jsonFirst : Option String := none
  deriving DecidableEq, Repr
/-- Errors the PACS client can raise: a transport failure or
`raise_for_status` on an HTTP status. -/
inductive PErr where
  | transport
  | http (status : Nat)
  deriving DecidableEq, Repr
/-- The client state for one scenario: the scripted responses of the remote
server consumed in call order, the trace of requests issued so far, and
whether `_TokenState` currently holds a usable cached token. -/
structure PacsState where
  script : List HttpResp
  trace : List HttpReq
  cachedToken : Bool
  deriving Repr
def tokenReq : HttpReq := { method := "POST", path := "tokenURL", body := "client_credentials" }
def instancesReq : HttpReq := { method := "POST", path := "/instances", body := "" }
def findInstanceSopReq (sop : String) : HttpReq :=
  { method := "POST", path := "/tools/find", body := "Instance SOPInstanceUID " ++ sop }
def findInstanceSeriesReq (series : String) : HttpReq :=
  { method := "POST", path := "/tools/find", body := "Instance SeriesInstanceUID " ++ series }
def findStudyReq (study : String) : HttpReq :=
  { method := "POST", path := "/tools/find", body := "Study StudyInstanceUID " ++ study }
def findStudyFallbackReq (study : String) : HttpReq :=
  { method := "GET", path := "/tools/find/" ++ study, body := "" }
def labelPutReq (orthancId lbl : String) : HttpReq :=
  { method := "PUT", path := "/studies/" ++ orthancId ++ "/labels/" ++ lbl, body := "" }
def labelPostReq (orthancId lbl : String) : HttpReq :=
  { method := "POST", path := "/studies/" ++ orthancId ++ "/labels/" ++ lbl, body := "" }
/-- Issue one HTTP call: record the request and consume the next scripted
response; an exhausted script behaves as a transport failure. -/
def send (s : PacsState) (r : HttpReq) : HttpResp × PacsState :=
  match s.script with
  | [] => ({ exn := true, status := 0 }, { s with trace := s.trace ++ [r] })
  | resp :: rest =>
      (resp, { script := rest, trace := s.trace ++ [r], cachedToken := s.cachedToken })
/-- `PacsUploader._get_token`: return the cached token when it is still
valid, otherwise `_fetch_token` POSTs to the token URL and
`raise_for_status` propagates transport and HTTP failures. The token value
itself is not modelled, only whether the cache is filled. -/
def getToken (s : PacsState) : Except PErr Unit × PacsState :=
  if s.cachedToken then (.ok (), s)
  else
    let (r, s1) := send s tokenReq
    if r.exn then (.error .transport, s1)
    else if 400 ≤ r.status then (.error (.http r.status), s1)
    else (.ok (), { s1 with cachedToken := true })
/-- `PacsUploader.upload_file` (lines 186-270), reduced to its HTTP
behaviour: acquire a token, POST the file to `/instances`; on a 401,
reset `_TokenState`, fetch a fresh token, and repeat the same POST once;
then `raise_for_status` on the final response. Progress callbacks and
throttling have no effect on the request sequence. -/
def uploadFile (s : PacsState) : Except PErr HttpResp × PacsState :=
  match getToken s with
  | (.error e, s1) => (.error e, s1)
  | (.ok _, s1) =>
      let (r, s2) := send s1 instancesReq
      if r.exn then (.error .transport, s2)
      else if r.status = 401 then
        let s2a := { s2 with cachedToken := false }
        match getToken s2a with
        | (.error e, sb) => (.error e, sb)
        | (.ok _, sb) =>
            let (r2, s3) := send sb instancesReq
            if r2.exn then (.error .transport, s3)
            else if 400 ≤ r2.status then (.error (.http r2.status), s3)
            else (.ok r2, s3)
      else if 400 ≤ r.status then (.error (.http r.status), s2)
      else (.ok r, s2)
/-- The 401 retry of the SOP-level `/tools/find` query (lines 308-316):
on 401 the token state is reset, a fresh token is fetched (a failure here
is caught by the surrounding handler, yielding `none` and hence `False`),
and the same query is sent once more. -/
def existsSopRetry (sop : String) (r : HttpResp) (s2 : PacsState) :
    Option HttpResp × PacsState :=
  if r.status = 401 then
    let s2a := { s2 with cachedToken := false }
    match getToken s2a with
    | (.error _, sb) => (none, sb)
    | (.ok _, sb) =>
        let q := send sb (findInstanceSopReq sop)
        if q.1.exn then (none, q.2) else (some q.1, q.2)
  else (some r, s2)
/-- The tail of the existence query (lines 317-342): 404 is `False`, any
error status is `False` via the caught `raise_for_status`, and a truthy
result triggers the series-level query, which has its own handler and no
retry of any kind. -/
def existsSeriesCheck (series : String) (rr : HttpResp) (s3 : PacsState) :
    Except PErr Bool × PacsState :=
  if rr.status = 404 then (.ok false, s3)
  else if 400 ≤ rr.status then (.ok false, s3)
  else if rr.jsonTruthy then
    let q := send s3 (findInstanceSeriesReq series)
    if q.1.exn then (.ok false, q.2)
    else if 400 ≤ q.1.status then (.ok false, q.2)
    else (.ok q.1.jsonTruthy, q.2)
  else (.ok false, s3)
/-- `PacsUploader._instance_exists_by_uid` (lines 291-349). An empty SOP UID
is `False` at once. The initial `_get_token()` call sits before the `try`,
so its failures propagate to the caller; everything after it is inside the
`try` whose handler returns `False`. The SOP-level `/tools/find` gets a
single same-request retry on 401; afterwards a 404 is `False`, any other
error status is `False` via the caught `raise_for_status`, and a truthy
result triggers the series-level query, which has its own handler and no
retry of any kind. -/
def instanceExistsByUid (sop series : String) (s : PacsState) :
    Except PErr Bool × PacsState :=
  if sop = "" then (.ok false, s)
  else
    match getToken s with
    | (.error e, s1) => (.error e, s1)
    | (.ok _, s1) =>
        let q := send s1 (findInstanceSopReq sop)
        if q.1.exn then (.ok false, q.2)
        else
          match existsSopRetry sop q.1 q.2 with
          | (none, s3) => (.ok false, s3)
          | (some rr, s3) => existsSeriesCheck series rr s3
/-- `PacsUploader.add_label` (lines 364-464). The whole body is inside an
outer `try` returning `False`, so nothing propagates. The study lookup is a
POST to `/tools/find`; its 401 retry is issued as a GET to
`/tools/find/{study_uid}`. The label request is a PUT to
`/studies/{id}/labels/{label}`; its 401 retry is issued as a POST to the
same URL. The final `raise_for_status` failure is caught and yields
`False`. JSON parsing of the lookup is abstracted into `jsonTruthy`
and `jsonFirst`. -/
def addLabel (studyUid lbl : String) (s : PacsState) : Bool × PacsState :=
  if studyUid = "" ∨ lbl = "" then (false, s)
  else
    match getToken s with
    | (.error _, s1) => (false, s1)
    | (.ok _, s1) =>
        let (lk, s2) := send s1 (findStudyReq studyUid)
        if lk.exn then (false, s2)
        else
          let step : Option HttpResp × PacsState :=
            if lk.status = 401 then
              let s2a := { s2 with cachedToken := false }
              match getToken s2a with
              | (.error _, sb) => (none, sb)
              | (.ok _, sb) =>
                  let (r2, s3) := send sb (findStudyFallbackReq studyUid)
                  if r2.exn then (none, s3) else (some r2, s3)
            else (some lk, s2)
          match step with
          | (none, s3) => (false, s3)
          | (some lkr, s3) =>
              if !lkr.jsonTruthy then (false, s3)
              else
                match lkr.jsonFirst with
                | none => (false, s3)
                | some orthancId =>
                    let (pr, s4) := send s3 (labelPutReq orthancId lbl)
                    if pr.exn then (false, s4)
                    else
                      let step2 : Option HttpResp × PacsState :=
                        if pr.status = 401 then
                          let s4a := { s4 with cachedToken := false }
                          match getToken s4a with
                          | (.error _, sb) => (none, sb)
                          | (.ok _, sb) =>
                              let (p2, sc) := send sb (labelPostReq orthancId lbl)
                              if p2.exn then (none, sc) else (some p2, sc)
                        else (some pr, s4)
                      match step2 with
                      | (none, s5) => (false, s5)
                      | (some prr, s5) =>
                          if 400 ≤ prr.status then (false, s5)
                          else (true, s5)
/-- The on-disk and in-process state of one upload folder as seen by
`upload_folder_async` and `_upload_folder_worker`: the `.pacs_uploading`
sentinel, the text of `.pacs_progress`, the `temp/` directory, whether the
folder itself exists, whether its key is in `_ACTIVE_UPLOAD_FOLDERS`, and
whether a worker thread has been spawned for it. -/
structure FolderState where
  lockExists : Bool := false
  progress : Option String := none
  tempExists : Bool := false
  folderExists : Bool := true
  activeInProcess : Bool := false
  workerSpawned : Bool := false
  deriving DecidableEq, Repr
/-- The value returned by `upload_folder_async`. -/
structure StartResult where
  started : Bool
  reason : Option String := none
  deriving DecidableEq, Repr
/-- Operator-visible log messages of the orchestrator start path. -/
inductive LogEvent where
  | alreadyRunning
  | interruptedPercent (p : String)
  | interruptedNoPercent
  deriving DecidableEq, Repr
/-- `PacsUploader._cleanup_upload_artifacts`: unlink both sentinels and
remove `temp/`; every step swallows its own errors (deletes succeed in the
model). -/
def cleanupUploadArtifacts (s : FolderState) : FolderState :=
  { s with lockExists := false, progress := none, tempExists := false }
/-- `PacsUploader.upload_folder_async` (lines 479-529): refuse a missing
folder, refuse a folder already claimed in-process; otherwise treat a stale
`.pacs_uploading` as an interrupted run (log the recorded percent when the
progress file has non-blank text, delete both sentinels and `temp/`), then
write the sentinels, claim the folder key and spawn the worker. -/
def uploadFolderAsync (s : FolderState) : StartResult × FolderState × List LogEvent :=
  if !s.folderExists then ({ started := false, reason := some "missing-folder" }, s, [])
  else if s.activeInProcess then
    ({ started := false, reason := some "in-progress" }, s, [.alreadyRunning])
  else
    let (s1, log1) :=
      if s.lockExists then
        let percent := strStrip (s.progress.getD "")
        let ev := if percent ≠ "" then LogEvent.interruptedPercent percent
                  else LogEvent.interruptedNoPercent
        (cleanupUploadArtifacts s, [ev])
      else (s, [])
    let s2 := { s1 with
                  lockExists := true
                  progress := some "0"
                  activeInProcess := true
                  workerSpawned := true }
    ({ started := true }, s2, log1)
/-- `PacsUploader._upload_folder_worker` (lines 531-654) reduced to its
state effects: on entry any stale `temp/` is removed and recreated; the
upload run itself is an arbitrary state transformer `body` (covering
success, per-file failures and raised exceptions alike, since the `finally`
runs in every case); the `finally` block then deletes both sentinels and
`temp/` and releases the in-process claim. -/
def uploadFolderWorker (body : FolderState → FolderState) (s : FolderState) : FolderState :=
  let s1 := { s with tempExists := true }
  let s2 := body s1
  { cleanupUploadArtifacts s2 with activeInProcess := false }
/-- The SOP UIDs drawn by a run of attachment staging that consumes two
generator values per emitted file: `evenUids S m n` is
`[some (S m), some (S (m+2)), ..., some (S (m+2*(n-1)))]`. -/
def evenUids (S : Nat → String) : Nat → Nat → List (Option String)
  | _, 0 => []
  | m, n + 1 => some (S m) :: evenUids S (m + 2) n

/-! Concrete example inputs used by the theorems below. -/
/-- A concrete UID supply: the n-th generated UID is a string of n+1 copies
of the letter x, so all values are distinct and non-empty. -/
def exSupply : Nat → String := fun n => String.mk (List.replicate (n + 1) 'x')
/-- The UID generator at the start of a scenario. -/
def exGen : UidGen := { supply := exSupply, next := 0 }
/-- The UID generator after one draw. -/
def exGen1 : UidGen := { supply := exSupply, next := 1 }

/-- A romexis-authored single-frame 3D DICOM whose source file carries an
InstitutionName different from the configured one. -/
def exRomexisSrc : SrcFile :=
  { stem := "scan", suffix := ".dcm",
    ds := { sopInstanceUID := some "1.2.3.10"
            seriesInstanceUID := some "1.2.3.11"
            studyInstanceUID := some "1.2.3.9"
            modality := some "CT"
            numberOfFrames := some 120
            institutionName := some "Other Clinic"
            fileMeta := { implementationVersionName := some "ROMEXIS_10" } } }

/-- A classified case holding exactly that one romexis single DICOM. -/
def cvRomexisSingle : CaseVars :=
  { hasSingleDicom := true, romexis := true, singleDicomFiles := [exRomexisSrc] }

/-- Two single-frame CT files of one series (no NumberOfFrames tag),
listed out of InstanceNumber order. -/
def exMultiA : SrcFile :=
  { stem := "ser001", suffix := ".dcm",
    ds := { sopInstanceUID := some "2.1", seriesInstanceUID := some "S"
            modality := some "CT", instanceNumber := some 1, pixelData := [10, 11] } }

def exMultiB : SrcFile :=
  { stem := "ser002", suffix := ".dcm",
    ds := { sopInstanceUID := some "2.2", seriesInstanceUID := some "S"
            modality := some "CT", instanceNumber := some 2, pixelData := [12, 13] } }

/-- A case whose only DICOM content is a multi-file series, with the
romexis flag set (for example because some series file was written by
Romexis software). -/
def cvMultiRomexis : CaseVars :=
  { romexis := true, multiSeries := [("S", [exMultiA, exMultiB])] }

/-- The same case with the romexis flag clear. -/
def cvMultiNoRomexis : CaseVars :=
  { multiSeries := [("S", [exMultiA, exMultiB])] }

/-- The multi-frame instance the fusion produces from
`cvMultiNoRomexis`: tags of `exMultiA` (first after sorting) with the
fused frame data and its unchanged SOP UID. -/
def exFusedMulti : Dicom :=
  { exMultiA.ds with
      numberOfFrames := some 2
      pixelData := [10, 11, 12, 13]
      institutionName := some "Inst"
      sopInstanceUID := some "2.1"
      fileMeta := { exMultiA.ds.fileMeta with mediaStorageSOPInstanceUID := some "2.1" }
      instanceNumber := none }

/-- A DICOM with neither `NumberOfFrames` nor `Modality`, followed by a
well-formed 2D DICOM, as items of the `find_cases` DICOM walk. -/
def exBadItem : WalkItem :=
  { name := "bad.dcm", fromOndemand := false, ds := { sopInstanceUID := some "7.1" } }

def exGoodItem : WalkItem :=
  { name := "pano.dcm", fromOndemand := false,
    ds := { sopInstanceUID := some "7.2", seriesInstanceUID := some "7.0",
            modality := some "PA" } }

/-- A case tree with a DICOM inside a subdirectory whose name does not
contain "ondemand", one inside the `OnDemand 3D` viewer subtree, and one
at the case root. -/
def exTree : List Entry :=
  [Entry.dir "xrays misc" [Entry.file "b.dcm"],
   Entry.dir "OnDemand 3D" [Entry.file "c.dcm"],
   Entry.file "a.dcm"]

/-- A case study-info record as extracted from a first DICOM whose
file meta carries a MediaStorageSOPInstanceUID. -/
def exStudyInfoWithSop : StudyInfo := { sop_uid := some "1.2.3", study_uid := some "9.9" }

def exPdfIn : PdfFile := { stem := "report", bytes := [37, 80, 68, 70] }

def exImgIn : ImageFile := { stem := "photo", rgbBytes := [1, 2, 3], rows := 1, cols := 1 }

/-- A PACS client with an empty token cache facing a token endpoint that is
unreachable. -/
def exTokenFailState : PacsState :=
  { script := [{ exn := true, status := 0 }], trace := [], cachedToken := false }

/-- A label-addition scenario: the study lookup succeeds, the label PUT
returns 401, the token refresh succeeds, and the follow-up request
succeeds. -/
def exLabelScript : PacsState :=
  { script :=
      [{ jsonTruthy := true, jsonFirst := some "oid1" },
       { status := 401 },
       {},
       {}],
    trace := [], cachedToken := true }

/-- A folder carrying a stale sentinel and a recorded percent of 37. -/
def exRecoveryState : FolderState :=
  { lockExists := true, progress := some "37", tempExists := true, folderExists := true }

/-- A 401 response with no transport failure. -/
def resp401 : HttpResp := { status := 401 }

/-- A successful response carrying no JSON payload of interest. -/
def respOk : HttpResp := {}

/-- A successful lookup response whose JSON array is non-empty with first
element `oid`. -/
def respFound (oid : String) : HttpResp := { jsonTruthy := true, jsonFirst := some oid }

/-- A transport failure (the HTTP call itself raises). -/
def respExn : HttpResp := { exn := true, status := 0 }

theorem exSupply_injective : Function.Injective exSupply := by
  intro a b h
  have hl := congrArg String.length h
  simp [exSupply] at hl
  exact hl

theorem exSupply_ne_empty : ∀ n, exSupply n ≠ "" := by
  intro n h
  have hl := congrArg String.length h
  simp [exSupply] at hl

/-- Claim C2: the spec says every emitted instance carries the configured
`InstitutionName`, including the verbatim-copy branches. The code sets the
tag only on an in-memory dataset and then copies the source file with
`shutil.copy2`, so the file emitted by the romexis single-DICOM branch
keeps its original `InstitutionName` ("Other Clinic", not the configured
"Configured Clinic"). -/
theorem romexis_copy_keeps_source_institution :
    stageFindCases "Configured Clinic" "Case X" cvRomexisSingle exGen
      = .ok ([("scan DCM .dcm", exRomexisSrc.ds)], ["3D-DICOM"], exGen)
    ∧ exRomexisSrc.ds.institutionName = some "Other Clinic"
    ∧ some "Other Clinic" ≠ some "Configured Clinic" := by
  refine ⟨rfl, rfl, by decide⟩

/-- Claim C4 counterexample: a case with no single DICOMs and a non-empty
`multiSeries`, but with `romexis = true`. The claim says fusion happens
with no further condition on the romexis flag; the `find_cases` staging
block (line 688) requires `not romexis`, so nothing is emitted and no
label is added. -/
theorem fusion_skipped_when_romexis :
    cvMultiRomexis.singleDicomFiles = []
    ∧ cvMultiRomexis.multiSeries ≠ []
    ∧ stageFindCases "Inst" "John Smith" cvMultiRomexis exGen = .ok ([], [], exGen) := by
  refine ⟨rfl, by decide, rfl⟩

/-- Claim C5: fusing two single-frame files sorts them by InstanceNumber,
writes `NumberOfFrames = 2` and the concatenated pixel bytes, clears
`InstanceNumber` and sets `InstitutionName` — but the emitted SOP UID is
the first (after sorting) input file UID "2.1", not a regenerated one: the
fresh UID the generator produced (`exGen.supply 0`) is discarded, despite
the source comment "Generate new UIDs". -/
theorem multiframe_fusion_keeps_first_sop_uid :
    convertMultiFileToMultiframe exGen "Inst" [exMultiB.ds, exMultiA.ds]
      = (some exFusedMulti, exGen1)
    ∧ exFusedMulti.sopInstanceUID = some "2.1"
    ∧ some "2.1" ≠ some (exGen.supply 0) := by
  refine ⟨rfl, rfl, by decide⟩

/-- Claim C7: the claim says a per-file classification failure is logged
and the walk continues. In `find_cases` the whole walk sits in one `try`:
the file with no `NumberOfFrames` and no `Modality` raises at
`modality.upper()` (line 600), the handler resets the flags, and the
remaining well-formed 2D file is never classified — alone it lands in
`twoDDicomFiles`, behind the bad file it does not. -/
theorem walk_aborts_on_missing_modality :
    (dicomWalkFC "Case X" [exGoodItem] {}).dicom2dFiles = ["pano.dcm"]
    ∧ (dicomWalkFC "Case X" [exBadItem, exGoodItem] {}).dicom2dFiles = []
    ∧ (dicomWalkFC "Case X" [exBadItem, exGoodItem] {}).dicomFiles = []
    ∧ (dicomWalkFC "Case X" [exBadItem, exGoodItem] {}).hasMultipleDicom = false
    ∧ (dicomWalkFC "Case X" [exBadItem, exGoodItem] {}).sopUids = ["7.1"] := by
  refine ⟨by decide, by decide, by decide, by decide, by decide⟩

/-- Claim C8: the `find_cases` walk probes files in every subdirectory, but
the `_process_single_case` walk (line 935) descends only into directories
whose lower-cased name contains "ondemand", so `b.dcm` under
`xrays misc` is probed by the today scan and silently skipped by the
yesterday-recovery scan. -/
theorem recovery_walk_skips_non_ondemand_dirs :
    "b.dcm" ∈ fcProbedList exTree
    ∧ "c.dcm" ∈ fcProbedList exTree
    ∧ "a.dcm" ∈ fcProbedList exTree
    ∧ "a.dcm" ∈ pscProbedList exTree
    ∧ "c.dcm" ∈ pscProbedList exTree
    ∧ "b.dcm" ∉ pscProbedList exTree := by
  refine ⟨by decide, by decide, by decide, by decide, by decide, by decide⟩

/-- Claim C1 counterexample: in a case whose study info provides a SOP UID
(any case containing at least one DICOM), the PDF encapsulation and the
image secondary capture both take `study_info["sop_uid"]` — neither input
provided a UID of its own, yet both emitted instances share
SOPInstanceUID "1.2.3", so the emitted UIDs are not pairwise distinct. -/
theorem attachment_sop_uids_collide :
    ((stageAttachments "Inst" "Case X" (some exStudyInfoWithSop) [exPdfIn] [exImgIn] exGen).1.map
        (fun p => p.2.sopInstanceUID)) = [some "1.2.3", some "1.2.3"]
    ∧ ¬ ((stageAttachments "Inst" "Case X" (some exStudyInfoWithSop) [exPdfIn] [exImgIn] exGen).1.map
        (fun p => p.2.sopInstanceUID)).Nodup := by
  refine ⟨by decide, by decide⟩

/-- Claim C9 counterexample: the claim says the existence query never
raises to its caller, but `_get_token()` is called before the `try`
(line 294), so a failing token fetch propagates out of
`_instance_exists_by_uid`. -/
theorem exists_raises_on_token_failure :
    (instanceExistsByUid "1.2.3" "1.2.4" exTokenFailState).1 = .error .transport := rfl

/-- Claim C6 counterexample: when the study-label PUT returns 401, the
claim says the client retries the same request; the code (line 441)
issues the retry with `session.post`, so the trace holds exactly one PUT
and the retry is a POST to the same URL. -/
theorem label_retry_not_same_request :
    (addLabel "9.9" "PDF" exLabelScript).2.trace
      = [findStudyReq "9.9", labelPutReq "oid1" "PDF", tokenReq, labelPostReq "oid1" "PDF"]
    ∧ ((addLabel "9.9" "PDF" exLabelScript).2.trace.count (labelPutReq "oid1" "PDF")) = 1
    ∧ (addLabel "9.9" "PDF" exLabelScript).1 = true := by
  refine ⟨rfl, by decide, rfl⟩

/-- Claim C10: when the target folder does not exist,
`upload_folder_async` returns `{started: false, reason: "missing-folder"}`
at once: no sentinel is written, no progress file is created, the
in-process active set is untouched, and no worker thread is spawned (the
folder state is returned unchanged). -/
theorem missing_folder_no_side_effects (s : FolderState)
    (h : s.folderExists = false) :
    uploadFolderAsync s
      = ({ started := false, reason := some "missing-folder" }, s, []) := by
  simp [uploadFolderAsync, h]

/-- Witness for `missing_folder_no_side_effects` at a concrete folder
state. -/
theorem missing_folder_no_side_effects_witness :
    ({ folderExists := false } : FolderState).folderExists = false
    ∧ uploadFolderAsync { folderExists := false }
        = ({ started := false, reason := some "missing-folder" },
           { folderExists := false }, []) :=
  ⟨rfl, missing_folder_no_side_effects { folderExists := false } rfl⟩

/-- Claim C3: starting an upload on an existing folder that is not claimed
in-process but still holds a stale `.pacs_uploading`: the start succeeds,
`temp/` is gone from the post-start state, the sentinels are rewritten and
the folder claimed and the worker spawned; the recorded percent (when the
progress file holds non-blank text) is logged; and whatever the worker
body does, after the run `.pacs_uploading`, `.pacs_progress` and `temp/`
are all absent. -/
theorem crash_recovery_cleans_sentinels (s : FolderState)
    (body : FolderState → FolderState)
    (hex : s.folderExists = true) (hact : s.activeInProcess = false)
    (hlock : s.lockExists = true) :
    (uploadFolderAsync s).1.started = true
    ∧ (uploadFolderAsync s).2.1.tempExists = false
    ∧ (uploadFolderAsync s).2.1.lockExists = true
    ∧ (uploadFolderAsync s).2.1.progress = some "0"
    ∧ (uploadFolderAsync s).2.1.activeInProcess = true
    ∧ (uploadFolderAsync s).2.1.workerSpawned = true
    ∧ (∀ p, s.progress = some p → strStrip p ≠ "" →
        (uploadFolderAsync s).2.2 = [LogEvent.interruptedPercent (strStrip p)])
    ∧ (uploadFolderWorker body (uploadFolderAsync s).2.1).lockExists = false
    ∧ (uploadFolderWorker body (uploadFolderAsync s).2.1).progress = none
    ∧ (uploadFolderWorker body (uploadFolderAsync s).2.1).tempExists = false := by
  refine ⟨?_, ?_, ?_, ?_, ?_, ?_, ?_, ?_, ?_, ?_⟩ <;>
    simp [uploadFolderAsync, uploadFolderWorker, cleanupUploadArtifacts, hex, hact, hlock]
  intro p hp hpt
  simp [hp, hpt]

/-- Witness for `crash_recovery_cleans_sentinels` at a concrete stale
state with the identity worker body. -/
theorem crash_recovery_cleans_sentinels_witness :
    (uploadFolderAsync exRecoveryState).1.started = true
    ∧ (uploadFolderAsync exRecoveryState).2.2 = [LogEvent.interruptedPercent (strStrip "37")]
    ∧ (uploadFolderWorker id (uploadFolderAsync exRecoveryState).2.1).lockExists = false
    ∧ (uploadFolderWorker id (uploadFolderAsync exRecoveryState).2.1).progress = none
    ∧ (uploadFolderWorker id (uploadFolderAsync exRecoveryState).2.1).tempExists = false := by
  obtain ⟨h1, h2, h3, h4, h5, h6, h7, h8, h9, h10⟩ :=
    crash_recovery_cleans_sentinels exRecoveryState id rfl rfl rfl
  exact ⟨h1, by simpa using h7 "37" rfl (by decide), h8, h9, h10⟩

/-- Claim C4 amended: when both single-DICOM buckets are empty and
`multiSeries` is non-empty (and the other buckets are empty so that the
fusion output is the only emission), the today-scan staging fuses the
largest series into `"<caseName> DCM.dcm"` with label `3D-DICOM` — but
only if `romexis` is false and the first file of the picked series has
Modality CT; the yesterday-recovery staging does the same with no romexis
condition and no modality check. -/
theorem fusion_branch_characterization :
    (∀ (inst caseName : String) (cv : CaseVars) (g g1 : UidGen) (fused : Dicom) (f0 : SrcFile),
      cv.hasSingleDicom = false →
      cv.romexis = false →
      cv.multiSeries ≠ [] →
      cv.hasProject = false →
      cv.dicom2dFiles = [] →
      cv.pdfFiles = [] →
      cv.imageFiles = [] →
      (maxByLen (cv.multiSeries.map (fun p => p.2))).head? = some f0 →
      f0.ds.modality = some "CT" →
      convertMultiFileToMultiframe g inst
          ((maxByLen (cv.multiSeries.map (fun p => p.2))).map (fun f => f.ds))
        = (some fused, g1) →
      stageFindCases inst caseName cv g
        = .ok ([(caseName ++ " DCM.dcm", fused)], ["3D-DICOM"], g1))
    ∧
    (∀ (inst caseName : String) (cv : CaseVars) (g g1 : UidGen) (fused : Dicom),
      cv.singleDicomFiles = [] →
      cv.multiSeries ≠ [] →
      cv.projectFiles = [] →
      cv.dicom2dFiles = [] →
      cv.pdfFiles = [] →
      cv.imageFiles = [] →
      maxByLen (cv.multiSeries.map (fun p => p.2)) ≠ [] →
      convertMultiFileToMultiframe g inst
          ((maxByLen (cv.multiSeries.map (fun p => p.2))).map (fun f => f.ds))
        = (some fused, g1) →
      stageProcessSingleCase inst caseName cv g
        = ([(caseName ++ " DCM.dcm", fused)], ["3D-DICOM", "Yesterday-Recovery"], g1)) := by
  constructor
  · intro inst caseName cv g g1 fused f0 h1 h2 h3 h4 h5 h6 h7 h8 h9 h10
    have hne : cv.multiSeries.isEmpty = false := by
      cases hh : cv.multiSeries with
      | nil => exact absurd hh h3
      | cons a l => simp
    have hmne : (maxByLen (cv.multiSeries.map (fun p => p.2))).isEmpty = false := by
      cases hh : maxByLen (cv.multiSeries.map (fun p => p.2)) with
      | nil => rw [hh] at h8; simp at h8
      | cons a l => simp
    have hCT : strUpper "CT" = "CT" := rfl
    simp [stageFindCases, hne, hmne, h1, h2, h4, h5, h6, h7, h8, h9, h10, hCT,
          stageAttachments]
  · intro inst caseName cv g g1 fused h1 h2 h3 h4 h5 h6 h7 h8
    have hse : cv.singleDicomFiles.isEmpty = true := by simp [h1]
    have hne : cv.multiSeries.isEmpty = false := by
      cases hh : cv.multiSeries with
      | nil => exact absurd hh h2
      | cons a l => simp
    have hmne : (maxByLen (cv.multiSeries.map (fun p => p.2))).isEmpty = false := by
      cases hh : maxByLen (cv.multiSeries.map (fun p => p.2)) with
      | nil => exact absurd hh h7
      | cons a l => simp
    simp [stageProcessSingleCase, hse, hne, hmne, h3, h4, h5, h6, h8,
          stageAttachments]

/-- Witness for `fusion_branch_characterization` on a concrete two-file
CT series with the romexis flag clear. -/
theorem fusion_branch_characterization_witness :
    stageFindCases "Inst" "John Smith" cvMultiNoRomexis exGen
      = .ok ([("John Smith DCM.dcm", exFusedMulti)], ["3D-DICOM"], exGen1) :=
  fusion_branch_characterization.1 "Inst" "John Smith" cvMultiNoRomexis exGen exGen1
    exFusedMulti exMultiA rfl rfl (by decide) rfl rfl rfl rfl rfl rfl rfl

/-- When the study info provides no usable SOP UID and a usable study UID,
one PDF emission takes its SOP UID from the generator at the current index
and consumes exactly two UIDs (SOP and series). -/
theorem createPdfDicom_sop_eq (inst cn : String) (si : StudyInfo) (p : PdfFile) (g : UidGen)
    (hs : pyOr si.sop_uid = none) (hstu : pyOr si.study_uid ≠ none) :
    (createPdfDicom inst p cn si g).1.sopInstanceUID = some (g.supply g.next)
    ∧ (createPdfDicom inst p cn si g).2 = { g with next := g.next + 2 } := by
  cases hu : pyOr si.study_uid with
  | none => exact absurd hu hstu
  | some u => exact ⟨by simp [createPdfDicom, hs, hu, takeUid], by simp [createPdfDicom, hs, hu, takeUid]⟩

/-- Same for one image emission. -/
theorem createImageDicom_sop_eq (inst cn : String) (si : StudyInfo) (i : ImageFile) (g : UidGen)
    (hs : pyOr si.sop_uid = none) (hstu : pyOr si.study_uid ≠ none) :
    (createImageDicom inst i cn si g).1.sopInstanceUID = some (g.supply g.next)
    ∧ (createImageDicom inst i cn si g).2 = { g with next := g.next + 2 } := by
  cases hu : pyOr si.study_uid with
  | none => exact absurd hu hstu
  | some u => exact ⟨by simp [createImageDicom, hs, hu, takeUid], by simp [createImageDicom, hs, hu, takeUid]⟩

/-- When the study info provides a usable SOP UID, every PDF emission
carries exactly that UID. -/
theorem createPdfDicom_sop_const (inst cn : String) (si : StudyInfo) (p : PdfFile) (g : UidGen)
    (u : String) (hs : pyOr si.sop_uid = some u) :
    (createPdfDicom inst p cn si g).1.sopInstanceUID = some u := by
  cases hu : pyOr si.study_uid <;> simp [createPdfDicom, hs, hu, takeUid]

/-- Same for one image emission. -/
theorem createImageDicom_sop_const (inst cn : String) (si : StudyInfo) (i : ImageFile) (g : UidGen)
    (u : String) (hs : pyOr si.sop_uid = some u) :
    (createImageDicom inst i cn si g).1.sopInstanceUID = some u := by
  cases hu : pyOr si.study_uid <;> simp [createImageDicom, hs, hu, takeUid]

/-- The PDF staging loop under a SOP-less study info: the emitted SOP UIDs
are the generator values at indices next, next+2, next+4, ..., and the
loop advances the generator by two draws per PDF. -/
theorem stagePdfs_sops (inst cn : String) (si : StudyInfo)
    (hs : pyOr si.sop_uid = none) (hstu : pyOr si.study_uid ≠ none) :
    ∀ (ps : List PdfFile) (g : UidGen),
      ((stagePdfs inst cn si ps g).1.map (fun x => x.2.sopInstanceUID)
          = evenUids g.supply g.next ps.length)
      ∧ (stagePdfs inst cn si ps g).2 = { g with next := g.next + 2 * ps.length } := by
  intro ps
  induction ps with
  | nil => exact fun g => ⟨by simp [stagePdfs, evenUids], rfl⟩
  | cons p ps ih =>
      intro g
      obtain ⟨hsop, hgen⟩ := createPdfDicom_sop_eq inst cn si p g hs hstu
      obtain ⟨ih1, ih2⟩ := ih { g with next := g.next + 2 }
      constructor
      · have hstep : (stagePdfs inst cn si (p :: ps) g).1.map (fun x => x.2.sopInstanceUID)
            = some (g.supply g.next) ::
              ((stagePdfs inst cn si ps { g with next := g.next + 2 }).1.map
                (fun x => x.2.sopInstanceUID)) := by
          simp only [stagePdfs, List.map_cons]
          rw [hsop, hgen]
        rw [hstep, ih1]
        rfl
      · show (stagePdfs inst cn si ps (createPdfDicom inst p cn si g).2).2 = _
        rw [hgen, ih2]
        dsimp only [List.length_cons]
        congr 1
        omega

/-- The image staging loop under a SOP-less study info, same shape. -/
theorem stageImages_sops (inst cn : String) (si : StudyInfo)
    (hs : pyOr si.sop_uid = none) (hstu : pyOr si.study_uid ≠ none) :
    ∀ (is : List ImageFile) (g : UidGen),
      ((stageImages inst cn si is g).1.map (fun x => x.2.sopInstanceUID)
          = evenUids g.supply g.next is.length)
      ∧ (stageImages inst cn si is g).2 = { g with next := g.next + 2 * is.length } := by
  intro is
  induction is with
  | nil => exact fun g => ⟨by simp [stageImages, evenUids], rfl⟩
  | cons i is ih =>
      intro g
      obtain ⟨hsop, hgen⟩ := createImageDicom_sop_eq inst cn si i g hs hstu
      obtain ⟨ih1, ih2⟩ := ih { g with next := g.next + 2 }
      constructor
      · have hstep : (stageImages inst cn si (i :: is) g).1.map (fun x => x.2.sopInstanceUID)
            = some (g.supply g.next) ::
              ((stageImages inst cn si is { g with next := g.next + 2 }).1.map
                (fun x => x.2.sopInstanceUID)) := by
          simp only [stageImages, List.map_cons]
          rw [hsop, hgen]
        rw [hstep, ih1]
        rfl
      · show (stageImages inst cn si is (createImageDicom inst i cn si g).2).2 = _
        rw [hgen, ih2]
        dsimp only [List.length_cons]
        congr 1
        omega

/-- The study-info fix-up preserves a missing SOP UID, leaves the study
UID usable (a fresh UID is non-empty by assumption on the supply), and
never changes the supply function. -/
theorem fixStudyInfo_spec (si0 : Option StudyInfo) (g : UidGen)
    (hsop : pyOr (si0.bind (fun si => si.sop_uid)) = none)
    (hne : ∀ n, g.supply n ≠ "") :
    pyOr (fixStudyInfo si0 g).1.sop_uid = none
    ∧ pyOr (fixStudyInfo si0 g).1.study_uid ≠ none
    ∧ (fixStudyInfo si0 g).2.supply = g.supply := by
  cases si0 with
  | none =>
      refine ⟨rfl, ?_, rfl⟩
      have hst : (fixStudyInfo none g).1.study_uid = some (g.supply g.next) := rfl
      rw [hst]
      simp [pyOr, hne g.next]
  | some si =>
      replace hsop : pyOr si.sop_uid = none := hsop
      cases hu : pyOr si.study_uid with
      | some u =>
          refine ⟨by simpa [fixStudyInfo, hu] using hsop, ?_, by simp [fixStudyInfo, hu]⟩
          simp [fixStudyInfo, hu]
      | none =>
          refine ⟨by simpa [fixStudyInfo, hu, takeUid] using hsop, ?_, by simp [fixStudyInfo, hu, takeUid]⟩
          have hfix : (fixStudyInfo (some si) g).1.study_uid = some (g.supply g.next) := by
            simp [fixStudyInfo, hu, takeUid]
          rw [hfix]
          simp [pyOr, hne g.next]

/-- Concatenating two even-stride UID runs, the second starting where the
first ends, gives one run. -/
theorem evenUids_append (S : Nat → String) :
    ∀ (a : Nat) (m b : Nat),
      evenUids S m a ++ evenUids S (m + 2 * a) b = evenUids S m (a + b) := by
  intro a
  induction a with
  | zero => intro m b; simp [evenUids]
  | succ a ih =>
      intro m b
      have harith : m + 2 * (a + 1) = (m + 2) + 2 * a := by omega
      calc evenUids S m (a + 1) ++ evenUids S (m + 2 * (a + 1)) b
          = some (S m) :: (evenUids S (m + 2) a ++ evenUids S ((m + 2) + 2 * a) b) := by
            rw [harith]; rfl
        _ = some (S m) :: evenUids S (m + 2) (a + b) := by rw [ih]
        _ = evenUids S m (a + 1 + b) := by
            have : a + 1 + b = (a + b) + 1 := by omega
            rw [this]; rfl

/-- Every element of an even-stride run is the supply at one of its
indices. -/
theorem mem_evenUids (S : Nat → String) :
    ∀ (n m : Nat) (x : Option String), x ∈ evenUids S m n →
      ∃ k, k < n ∧ x = some (S (m + 2 * k)) := by
  intro n
  induction n with
  | zero => intro m x hx; simp [evenUids] at hx
  | succ n ih =>
      intro m x hx
      rcases List.mem_cons.mp hx with h | h
      · exact ⟨0, by omega, by simpa using h⟩
      · obtain ⟨k, hk, hkx⟩ := ih (m + 2) x h
        refine ⟨k + 1, by omega, ?_⟩
        rw [hkx]
        have harith : (m + 2) + 2 * k = m + 2 * (k + 1) := by omega
        rw [harith]

/-- An even-stride run over an injective supply has no duplicates. -/
theorem evenUids_nodup (S : Nat → String) (hinj : Function.Injective S) :
    ∀ (n m : Nat), (evenUids S m n).Nodup := by
  intro n
  induction n with
  | zero => intro m; simp [evenUids]
  | succ n ih =>
      intro m
      refine List.nodup_cons.mpr ⟨?_, ih (m + 2)⟩
      intro hmem
      obtain ⟨k, hk, hkx⟩ := mem_evenUids S n (m + 2) (some (S m)) hmem
      have := hinj (Option.some.inj hkx)
      omega

/-- Under a study info with a usable SOP UID, every file emitted by the PDF
loop carries that UID. -/
theorem stagePdfs_sop_const (inst cn : String) (si : StudyInfo) (u : String)
    (hs : pyOr si.sop_uid = some u) :
    ∀ (ps : List PdfFile) (g : UidGen) (x : String × Dicom),
      x ∈ (stagePdfs inst cn si ps g).1 → x.2.sopInstanceUID = some u := by
  intro ps
  induction ps with
  | nil => intro g x hx; simp [stagePdfs] at hx
  | cons p ps ih =>
      intro g x hx
      rcases List.mem_cons.mp hx with h1 | h1
      · rw [h1]; exact createPdfDicom_sop_const inst cn si p g u hs
      · exact ih _ _ h1

/-- Same for the image loop. -/
theorem stageImages_sop_const (inst cn : String) (si : StudyInfo) (u : String)
    (hs : pyOr si.sop_uid = some u) :
    ∀ (is : List ImageFile) (g : UidGen) (x : String × Dicom),
      x ∈ (stageImages inst cn si is g).1 → x.2.sopInstanceUID = some u := by
  intro is
  induction is with
  | nil => intro g x hx; simp [stageImages] at hx
  | cons i is ih =>
      intro g x hx
      rcases List.mem_cons.mp hx with h1 | h1
      · rw [h1]; exact createImageDicom_sop_const inst cn si i g u hs
      · exact ih _ _ h1

/-- The fix-up never changes a usable SOP UID. -/
theorem fixStudyInfo_sop_const (si0 : Option StudyInfo) (g : UidGen) (u : String)
    (hu : pyOr (si0.bind (fun si => si.sop_uid)) = some u) :
    pyOr (fixStudyInfo si0 g).1.sop_uid = some u := by
  cases si0 with
  | none => simp [pyOr] at hu
  | some si =>
      replace hu : pyOr si.sop_uid = some u := hu
      cases hs : pyOr si.study_uid with
      | some v => simpa [fixStudyInfo, hs] using hu
      | none => simpa [fixStudyInfo, hs, takeUid] using hu

/-- Claim C1 amended: the SOP UID of every staged PDF and image comes from
the case study info when that record provides a non-empty SOP UID (the
first DICOM file-meta MediaStorageSOPInstanceUID) — in which case all
attachment emissions share it; only when the case provides none does each
emission draw a fresh UID, and then (for an injective, nonempty-valued
supply) the emitted attachment SOP UIDs are pairwise distinct. -/
theorem attachment_sop_uid_rule :
    (∀ (inst caseName : String) (si0 : Option StudyInfo) (pdfs : List PdfFile)
        (imgs : List ImageFile) (g : UidGen) (u : String),
      pyOr (si0.bind (fun si => si.sop_uid)) = some u →
      ∀ x ∈ (stageAttachments inst caseName si0 pdfs imgs g).1,
        x.2.sopInstanceUID = some u)
    ∧
    (∀ (inst caseName : String) (si0 : Option StudyInfo) (pdfs : List PdfFile)
        (imgs : List ImageFile) (g : UidGen),
      pyOr (si0.bind (fun si => si.sop_uid)) = none →
      Function.Injective g.supply →
      (∀ n, g.supply n ≠ "") →
      ((stageAttachments inst caseName si0 pdfs imgs g).1.map
        (fun x => x.2.sopInstanceUID)).Nodup) := by
  constructor
  · intro inst caseName si0 pdfs imgs g u hu x hx
    by_cases hemp : pdfs = [] ∧ imgs = []
    · simp [stageAttachments, hemp.1, hemp.2] at hx
    · have hsi := fixStudyInfo_sop_const si0 g u hu
      have hsplit : (stageAttachments inst caseName si0 pdfs imgs g).1
          = (stagePdfs inst caseName (fixStudyInfo si0 g).1 pdfs (fixStudyInfo si0 g).2).1
            ++ (stageImages inst caseName (fixStudyInfo si0 g).1 imgs
                (stagePdfs inst caseName (fixStudyInfo si0 g).1 pdfs (fixStudyInfo si0 g).2).2).1 := by
        simp [stageAttachments, hemp]
      rw [hsplit] at hx
      rcases List.mem_append.mp hx with hmem | hmem
      · exact stagePdfs_sop_const inst caseName _ u hsi pdfs _ x hmem
      · exact stageImages_sop_const inst caseName _ u hsi imgs _ x hmem
  · intro inst caseName si0 pdfs imgs g hsop hinj hne
    by_cases hemp : pdfs = [] ∧ imgs = []
    · simp [stageAttachments, hemp.1, hemp.2]
    · obtain ⟨hA, hB, hC⟩ := fixStudyInfo_spec si0 g hsop hne
      obtain ⟨hp1, hp2⟩ := stagePdfs_sops inst caseName (fixStudyInfo si0 g).1 hA hB pdfs
        (fixStudyInfo si0 g).2
      obtain ⟨hi1, _⟩ := stageImages_sops inst caseName (fixStudyInfo si0 g).1 hA hB imgs
        (stagePdfs inst caseName (fixStudyInfo si0 g).1 pdfs (fixStudyInfo si0 g).2).2
      have hsplit : (stageAttachments inst caseName si0 pdfs imgs g).1
          = (stagePdfs inst caseName (fixStudyInfo si0 g).1 pdfs (fixStudyInfo si0 g).2).1
            ++ (stageImages inst caseName (fixStudyInfo si0 g).1 imgs
                (stagePdfs inst caseName (fixStudyInfo si0 g).1 pdfs (fixStudyInfo si0 g).2).2).1 := by
        simp [stageAttachments, hemp]
      have hmap : (stageAttachments inst caseName si0 pdfs imgs g).1.map
            (fun x => x.2.sopInstanceUID)
          = evenUids g.supply (fixStudyInfo si0 g).2.next (pdfs.length + imgs.length) := by
        rw [hsplit, List.map_append, hp1, hi1, hp2]
        dsimp only
        rw [hC, evenUids_append]
      rw [hmap]
      exact evenUids_nodup g.supply hinj (pdfs.length + imgs.length) (fixStudyInfo si0 g).2.next

/-- Witness for `attachment_sop_uid_rule` on a case with no DICOMs (no SOP
UID in the study info): one PDF and one image receive distinct fresh SOP
UIDs. -/
theorem attachment_sop_uid_rule_witness :
    pyOr ((none : Option StudyInfo).bind (fun si => si.sop_uid)) = none
    ∧ ((stageAttachments "Inst" "Case X" none [exPdfIn] [exImgIn] exGen).1.map
        (fun x => x.2.sopInstanceUID)).Nodup :=
  ⟨rfl, attachment_sop_uid_rule.2 "Inst" "Case X" none [exPdfIn] [exImgIn] exGen rfl
    exSupply_injective exSupply_ne_empty⟩

/-- Claim C6 amended: on a 401 the client always invalidates the cached
token and retries exactly once with a fresh one, but the retried request is
the same one only for the instance upload and for the SOP-level existence
query; the series-level existence query performs no retry at all (it
reports false), the add-label study lookup retries as a GET to
`/tools/find/{studyUid}`, and the label PUT retries as a POST to the same
URL. -/
theorem retry_behavior_on_401 :
    (∀ (r2 : HttpResp) (rest : List HttpResp) (tr : List HttpReq),
      (uploadFile { script := resp401 :: respOk :: r2 :: rest, trace := tr, cachedToken := true }).2.trace
        = tr ++ [instancesReq, tokenReq, instancesReq])
    ∧
    (∀ (sop series : String) (tr : List HttpReq), sop ≠ "" →
      instanceExistsByUid sop series
          { script := [resp401, respOk, respOk], trace := tr, cachedToken := true }
        = (.ok false,
           { script := [], trace := tr ++ [findInstanceSopReq sop, tokenReq, findInstanceSopReq sop],
             cachedToken := true }))
    ∧
    (∀ (sop series : String) (tr : List HttpReq), sop ≠ "" →
      instanceExistsByUid sop series
          { script := [{ jsonTruthy := true }, resp401], trace := tr, cachedToken := true }
        = (.ok false,
           { script := [], trace := tr ++ [findInstanceSopReq sop, findInstanceSeriesReq series],
             cachedToken := true }))
    ∧
    (∀ (u lbl : String) (tr : List HttpReq), u ≠ "" → lbl ≠ "" →
      addLabel u lbl
          { script := [resp401, respOk, respFound "oid", respOk], trace := tr, cachedToken := true }
        = (true,
           { script := [],
             trace := tr ++ [findStudyReq u, tokenReq, findStudyFallbackReq u, labelPutReq "oid" lbl],
             cachedToken := true }))
    ∧
    (∀ (u lbl : String) (tr : List HttpReq), u ≠ "" → lbl ≠ "" →
      addLabel u lbl
          { script := [respFound "oid", resp401, respOk, respOk], trace := tr, cachedToken := true }
        = (true,
           { script := [],
             trace := tr ++ [findStudyReq u, labelPutReq "oid" lbl, tokenReq, labelPostReq "oid" lbl],
             cachedToken := true })) := by
  refine ⟨?_, ?_, ?_, ?_, ?_⟩
  · intro r2 rest tr
    simp only [uploadFile, getToken, send, resp401, respOk]
    norm_num
    split <;> first | simp | (split <;> simp)
  · intro sop series tr h
    simp [instanceExistsByUid, existsSopRetry, existsSeriesCheck, getToken, send, resp401, respOk, h]
  · intro sop series tr h
    simp [instanceExistsByUid, existsSopRetry, existsSeriesCheck, getToken, send, resp401, h]
  · intro u lbl tr hu hl
    simp [addLabel, getToken, send, resp401, respOk, respFound, hu, hl]
  · intro u lbl tr hu hl
    simp [addLabel, getToken, send, resp401, respOk, respFound, hu, hl]

/-- Witness for `retry_behavior_on_401`: a concrete upload whose first POST
gets a 401 issues exactly the same POST once more after the token
refresh. -/
theorem retry_behavior_on_401_witness :
    (uploadFile { script := [resp401, respOk, respOk], trace := [], cachedToken := true }).2.trace
      = [instancesReq, tokenReq, instancesReq] := by
  have h := retry_behavior_on_401.1 respOk [] []
  simpa using h

/-- The series-check tail of the existence query always returns an `ok`
value. -/
theorem existsSeriesCheck_isOk (series : String) (rr : HttpResp) (s3 : PacsState) :
    ((existsSeriesCheck series rr s3).1).isOk = true := by
  simp only [existsSeriesCheck]
  repeat' split
  all_goals rfl

/-- With a valid cached token the existence query never raises. -/
theorem instanceExistsByUid_isOk (sop series : String) (s : PacsState)
    (h : s.cachedToken = true) :
    ((instanceExistsByUid sop series s).1).isOk = true := by
  by_cases hs : sop = ""
  · rw [instanceExistsByUid, if_pos hs]
    rfl
  · rw [instanceExistsByUid, if_neg hs]
    have hg : getToken s = (.ok (), s) := by rw [getToken, if_pos h]
    rw [hg]
    dsimp only
    rcases hq : send s (findInstanceSopReq sop) with ⟨r, s2⟩
    dsimp only
    by_cases he : r.exn = true
    · rw [if_pos he]
      rfl
    · rw [if_neg he]
      rcases hstep : existsSopRetry sop r s2 with ⟨o, s3⟩
      cases o with
      | none => rfl
      | some rr => exact existsSeriesCheck_isOk series rr s3

/-- The value of the series-check tail on an explicit script. -/
theorem existsSeriesCheck_script (series : String) (rr r2 : HttpResp)
    (rest : List HttpResp) (tr : List HttpReq) (ct : Bool) :
    (existsSeriesCheck series rr { script := r2 :: rest, trace := tr, cachedToken := ct }).1
      = .ok ((!(decide (rr.status = 404)) && !(decide (400 ≤ rr.status)) && rr.jsonTruthy)
             && (!r2.exn && !(decide (400 ≤ r2.status)) && r2.jsonTruthy)) := by
  by_cases h404 : rr.status = 404 <;> by_cases hlt : 400 ≤ rr.status <;>
    cases hj : rr.jsonTruthy <;>
    cases he2 : r2.exn <;> by_cases hlt2 : 400 ≤ r2.status <;>
    simp [existsSeriesCheck, send, h404, hlt, hj, he2, hlt2]

/-- Claim C9 amended: the existence query returns the AND of the two
instance-level lookups (each counted successful only when it returns a
non-error status below 400 with a truthy JSON array, 404 and every error
giving false); an empty SOP UID gives false with no request; with a valid
cached token the operation never raises; but when the token cache is empty
and the initial token fetch fails, the failure propagates to the caller. -/
theorem exists_query_characterization :
    (∀ (series : String) (s : PacsState),
      instanceExistsByUid "" series s = (.ok false, s))
    ∧
    (∀ (sop series : String) (s : PacsState), s.cachedToken = true →
      ((instanceExistsByUid sop series s).1).isOk = true)
    ∧
    (∀ (sop series : String) (r1 r2 : HttpResp) (rest : List HttpResp) (tr : List HttpReq),
      sop ≠ "" → r1.status ≠ 401 →
      (instanceExistsByUid sop series { script := r1 :: r2 :: rest, trace := tr, cachedToken := true }).1
        = .ok ((!r1.exn && !(decide (r1.status = 404)) && !(decide (400 ≤ r1.status)) && r1.jsonTruthy)
               && (!r2.exn && !(decide (400 ≤ r2.status)) && r2.jsonTruthy)))
    ∧
    (∀ (sop series : String) (rest : List HttpResp) (tr : List HttpReq), sop ≠ "" →
      instanceExistsByUid sop series { script := respExn :: rest, trace := tr, cachedToken := false }
        = (.error .transport, { script := rest, trace := tr ++ [tokenReq], cachedToken := false })) := by
  refine ⟨?_, ?_, ?_, ?_⟩
  · intro series s
    simp [instanceExistsByUid]
  · intro sop series s h
    exact instanceExistsByUid_isOk sop series s h
  · intro sop series r1 r2 rest tr hs h401
    rw [instanceExistsByUid, if_neg hs]
    have hg : getToken { script := r1 :: r2 :: rest, trace := tr, cachedToken := true }
        = (.ok (), { script := r1 :: r2 :: rest, trace := tr, cachedToken := true }) := by
      rw [getToken, if_pos rfl]
    rw [hg]
    dsimp only
    have hq : send { script := r1 :: r2 :: rest, trace := tr, cachedToken := true }
        (findInstanceSopReq sop)
        = (r1, { script := r2 :: rest,
                 trace := tr ++ [findInstanceSopReq sop], cachedToken := true }) := rfl
    rw [hq]
    dsimp only
    rcases he1 : r1.exn with _ | _
    · rw [if_neg (by simp)]
      rw [existsSopRetry, if_neg h401]
      dsimp only
      rw [existsSeriesCheck_script]
      simp [he1]
    · simp [he1]
  · intro sop series rest tr hs
    simp [instanceExistsByUid, getToken, send, respExn, hs]

/-- Witness for `exists_query_characterization`: with a cached token and
both lookups answering 200 with a non-empty array, the query returns
true. -/
theorem exists_query_characterization_witness :
    ("1.2.3" : String) ≠ ""
    ∧ (instanceExistsByUid "1.2.3" "1.2.4"
        { script := [{ jsonTruthy := true }, { jsonTruthy := true }], trace := [],
          cachedToken := true }).1 = .ok true := by
  refine ⟨by decide, ?_⟩
  have h := exists_query_characterization.2.2.1 "1.2.3" "1.2.4"
    { jsonTruthy := true } { jsonTruthy := true } [] [] (by decide) (by decide)
  simpa using h
